import Mathlib

/-!
Shallow embedding of the SafeRouteMaps real-time location hub
(server-side WebSocket hub in `signalr-hub.ts`, storage layer in
`database.ts`, consumer-side reconnection controller in
`signalr-service.ts`) together with theorems settling the frozen
claims about the hub's fanout, error handling, presence tracking and
reconnection backoff behavior.

Modelling conventions:
- JavaScript runtime values that flow through loosely typed message
  fields (JSON numbers or strings) are `JVal`.
- A JS `Date` value is `JsDate := Option Int`: `some t` is a valid
  date holding epoch instant `t`, `none` is an Invalid Date (the
  result of `new Date` on an unparsable input).  ISO-8601 strings of
  the fixed format produced by `toISOString` compare lexicographically
  exactly as the underlying instants, so timestamps are carried as
  integers throughout.
- A JS `Set` of strings is an insertion-ordered duplicate-free
  `List String` with `setAdd` / `setDelete` mirroring `Set.add` /
  `Set.delete`.
- Fallible JS code (code that can throw) returns `Except String _`;
  the `try`/`catch` in the `message` event handler is the match in
  `onMessageEvent`.
-/

namespace SafeRouteMaps

/-- A loosely typed JSON field value: a number or a string. -/
inductive JVal where
  | num (q : Rat)
  | str (s : String)
  deriving DecidableEq, Repr

/-- A JS `Date`: `some t` is a valid date at epoch instant `t`, `none` is
an Invalid Date (what `new Date` yields on an unparsable input). -/
abbrev JsDate : Type := Option Int

/-- `Set.add`: appends the element unless already present (JS Set semantics,
insertion ordered). -/
def setAdd (s : List String) (d : String) : List String :=
  if d ∈ s then s else s ++ [d]

/-- `Set.delete`: removes the element if present. -/
def setDelete (s : List String) (d : String) : List String :=
  s.filter (fun x => x ≠ d)

/-- A registry entry of the hub: `connectedClients` maps a client id to the
client's socket and its joined device groups.  `isOpen` is whether the
socket's `readyState` is `WebSocket.OPEN`. -/
structure ConnectedClient where
  id : String
  isOpen : Bool
  deviceGroups : List String
  deriving DecidableEq, Repr

/-- The `LocationUpdate` payload constructed by the `SendLocation` handler.
Optional telemetry fields are exactly the values found on the decoded
message (absent stays absent). -/
structure LocationUpdate where
  id : String
  deviceId : String
  latitude : JVal
  longitude : JVal
  timestamp : Int
  accuracy : Option JVal
  speed : Option JVal
  heading : Option JVal
  altitude : Option JVal
  deriving DecidableEq, Repr

/-- A row of the `locations` table (`database.ts`). -/
structure LocationRow where
  id : String
  device_id : String
  latitude : JVal
  longitude : JVal
  timestamp : Int
  accuracy : Option JVal
  speed : Option JVal
  heading : Option JVal
  altitude : Option JVal
  deriving DecidableEq, Repr

/-- The storage state: the `locations` table and the `devices` table
(device id paired with its `status` column). -/
structure DbState where
  locations : List LocationRow
  devices : List (String × String)
  deriving DecidableEq, Repr

/-- Fields of a decoded `SendLocation` message.  JSON.parse performs no
type coercion, so each field is whatever value the wire carried. -/
structure SendLocationMsg where
  deviceId : String
  latitude : JVal
  longitude : JVal
  accuracy : Option JVal
  speed : Option JVal
  heading : Option JVal
  altitude : Option JVal
  deriving DecidableEq, Repr

/-- A decoded inbound client message (the value of `JSON.parse` on a frame,
discriminated on its `type` field).  `unknown` is a well-formed frame whose
tag matches no case of the `switch`.  For `getDeviceHistory` the two fields
hold the values `new Date(message.from)` and `new Date(message.to)`;
`Date` parsing itself is the JS runtime's, an unparsable string gives an
Invalid Date (`none`). -/
inductive ClientMessage where
  | sendLocation (m : SendLocationMsg)
  | joinDeviceGroup (deviceId : String)
  | leaveDeviceGroup (deviceId : String)
  | getDeviceHistory (fromDate toDate : JsDate)
  | ping
  | unknown (tag : String)

/-- An outbound hub message. -/
inductive ServerMessage where
  | connected (connectionId : String)
  | receiveLocation (loc : LocationUpdate)
  | receiveLocations (locs : List LocationUpdate)
  | deviceStatusChanged (deviceId : String) (status : String)
  | pong
  deriving DecidableEq, Repr

/-- Whether an outbound message is a `DeviceStatusChanged` frame. -/
def isStatusMsg : ServerMessage → Bool
  | ServerMessage.deviceStatusChanged _ _ => true
  | _ => false

/-- The hub's state: the module-level `connectedClients` registry and the
storage collaborator's state. -/
structure HubState where
  connectedClients : List ConnectedClient
  db : DbState
  deriving DecidableEq, Repr

/-- `socket.send` on the raw transport: sending on a socket that is not
open is a transport error (would throw). -/
def rawSend (c : ConnectedClient) (m : ServerMessage) :
    Except String (String × ServerMessage) :=
  if c.isOpen then Except.ok (c.id, m) else Except.error "socket is not open"

/-- `sendToClient`: guards the raw send with `readyState === WebSocket.OPEN`,
so a send to a closed or closing socket is silently skipped, never an
error.  `ok (some d)` is a performed delivery `d`; `ok none` is a silent
drop. -/
def sendToClient (c : ConnectedClient) (m : ServerMessage) :
    Except String (Option (String × ServerMessage)) :=
  if c.isOpen then (rawSend c m).map some else Except.ok none

/-- The fanout target condition of `broadcastLocation`: a client is sent the
event iff its device-group set is empty or contains the event's device. -/
def isTarget (c : ConnectedClient) (deviceId : String) : Bool :=
  c.deviceGroups.isEmpty || c.deviceGroups.contains deviceId

/-- `broadcastLocation`: iterates the registry (`forEach`), sending the
`ReceiveLocation` message to each client satisfying the target condition.
An exception thrown by a send would abort the remaining iterations, which
the error case propagates. -/
def broadcastLocation :
    List ConnectedClient → LocationUpdate →
    Except String (List (String × ServerMessage))
  | [], _ => Except.ok []
  | c :: rest, loc =>
    match (if isTarget c loc.deviceId then
             sendToClient c (ServerMessage.receiveLocation loc)
           else Except.ok none) with
    | Except.error e => Except.error e
    | Except.ok hd =>
      match broadcastLocation rest loc with
      | Except.error e => Except.error e
      | Except.ok tl => Except.ok (hd.toList ++ tl)

/-- The list of deliveries `broadcastLocation` performs: one delivery per
registered client that satisfies the target condition and has an open
socket. -/
def broadcastList (clients : List ConnectedClient) (loc : LocationUpdate) :
    List (String × ServerMessage) :=
  clients.filterMap (fun c =>
    if isTarget c loc.deviceId && c.isOpen then
      some (c.id, ServerMessage.receiveLocation loc)
    else none)

/-- `broadcastDeviceStatus`: sends the `DeviceStatusChanged` message to
every registered client, with no subscription filter. -/
def broadcastDeviceStatus :
    List ConnectedClient → String → String →
    Except String (List (String × ServerMessage))
  | [], _, _ => Except.ok []
  | c :: rest, deviceId, status =>
    match sendToClient c (ServerMessage.deviceStatusChanged deviceId status) with
    | Except.error e => Except.error e
    | Except.ok hd =>
      match broadcastDeviceStatus rest deviceId status with
      | Except.error e => Except.error e
      | Except.ok tl => Except.ok (hd.toList ++ tl)

/-- The list of deliveries `broadcastDeviceStatus` performs: one per
registered client with an open socket, regardless of its device groups. -/
def statusDeliveries (clients : List ConnectedClient)
    (deviceId status : String) : List (String × ServerMessage) :=
  clients.filterMap (fun c =>
    if c.isOpen then
      some (c.id, ServerMessage.deviceStatusChanged deviceId status)
    else none)

/-- Converts the constructed `LocationUpdate` to the row the `INSERT INTO
locations` statement writes (absent optional fields become NULL, kept as
`none`). -/
def locationToRow (loc : LocationUpdate) : LocationRow :=
  { id := loc.id, device_id := loc.deviceId, latitude := loc.latitude,
    longitude := loc.longitude, timestamp := loc.timestamp,
    accuracy := loc.accuracy, speed := loc.speed, heading := loc.heading,
    altitude := loc.altitude }

/-- `updateDeviceStatus`: if a row for the device exists, its `status`
column is set; otherwise a fresh row is inserted. -/
def updateDeviceStatus (db : DbState) (deviceId status : String) : DbState :=
  if db.devices.any (fun p => p.1 = deviceId) then
    { db with devices :=
        db.devices.map (fun p => if p.1 = deviceId then (p.1, status) else p) }
  else
    { db with devices := db.devices ++ [(deviceId, status)] }

/-- `insertLocation`: appends the row to the `locations` table, then marks
the device `online` via `updateDeviceStatus` (a storage write only — no
event is emitted here). -/
def insertLocation (db : DbState) (loc : LocationUpdate) : DbState :=
  updateDeviceStatus
    { db with locations := db.locations ++ [locationToRow loc] }
    loc.deviceId "online"

/-- The `status` column currently stored for a device. -/
def deviceStatus (db : DbState) (deviceId : String) : Option String :=
  (db.devices.find? (fun p => p.1 = deviceId)).map (fun p => p.2)

/-- `Date.prototype.toISOString`: throws a RangeError on an Invalid Date;
on a valid date it yields the instant (carried as the integer itself, since
the fixed-format ISO strings order exactly as the instants). -/
def dateToISOString : JsDate → Except String Int
  | some t => Except.ok t
  | none => Except.error "RangeError: Invalid time value"

/-- Insertion of a row into a list sorted by descending timestamp. -/
def insertDescByTime (r : LocationRow) : List LocationRow → List LocationRow
  | [] => [r]
  | x :: xs =>
    if x.timestamp ≤ r.timestamp then r :: x :: xs
    else x :: insertDescByTime r xs

/-- `ORDER BY timestamp DESC`. -/
def sortDescByTime : List LocationRow → List LocationRow
  | [] => []
  | x :: xs => insertDescByTime x (sortDescByTime xs)

/-- `getLocationsByTimeRange`: serialises both bounds with `toISOString`
(throwing on an Invalid Date), then selects the rows with
`timestamp >= from AND timestamp <= to`, ordered by descending
timestamp. -/
def getLocationsByTimeRange (db : DbState) (fromDate toDate : JsDate) :
    Except String (List LocationRow) :=
  match dateToISOString fromDate with
  | Except.error e => Except.error e
  | Except.ok lo =>
    match dateToISOString toDate with
    | Except.error e => Except.error e
    | Except.ok hi =>
      Except.ok (sortDescByTime
        (db.locations.filter (fun r => lo ≤ r.timestamp && r.timestamp ≤ hi)))

/-- Maps a queried row back to the payload shape of the `ReceiveLocations`
reply. -/
def rowToPayload (r : LocationRow) : LocationUpdate :=
  { id := r.id, deviceId := r.device_id, latitude := r.latitude,
    longitude := r.longitude, timestamp := r.timestamp,
    accuracy := r.accuracy, speed := r.speed, heading := r.heading,
    altitude := r.altitude }

/-- Applies a device-group mutation to the registry entries with the given
client id (the handler mutates the `deviceGroups` set of the client object
stored in the registry). -/
def updateClientGroups (clients : List ConnectedClient) (clientId : String)
    (f : List String → List String) : List ConnectedClient :=
  clients.map (fun c =>
    if c.id = clientId then { c with deviceGroups := f c.deviceGroups } else c)

/-- The `LocationUpdate` the `SendLocation` case constructs: hub-assigned id
`deviceId + "_" + Date.now()`, hub-assigned timestamp, and every telemetry
field copied from the decoded message unchanged. -/
def mkLocationUpdate (m : SendLocationMsg) (now : Int) : LocationUpdate :=
  { id := m.deviceId ++ "_" ++ toString now, deviceId := m.deviceId,
    latitude := m.latitude, longitude := m.longitude, timestamp := now,
    accuracy := m.accuracy, speed := m.speed, heading := m.heading,
    altitude := m.altitude }

/-- `handleClientMessage`: the dispatch switch on the decoded message's
type tag.  Returns the updated hub state together with the list of
deliveries performed, or the exception the handler threw.  `client` is the
connection whose frame is being handled; `now` is the current time. -/
def handleClientMessage (client : ConnectedClient) (msg : ClientMessage)
    (st : HubState) (now : Int) :
    Except String (HubState × List (String × ServerMessage)) :=
  match msg with
  | ClientMessage.sendLocation m =>
    let location := mkLocationUpdate m now
    let db1 := insertLocation st.db location
    match broadcastLocation st.connectedClients location with
    | Except.error e => Except.error e
    | Except.ok sends => Except.ok ({ st with db := db1 }, sends)
  | ClientMessage.joinDeviceGroup d =>
    let clients1 := updateClientGroups st.connectedClients client.id (fun s => setAdd s d)
    Except.ok ({ st with connectedClients := clients1 }, [])
  | ClientMessage.leaveDeviceGroup d =>
    let clients1 := updateClientGroups st.connectedClients client.id (fun s => setDelete s d)
    Except.ok ({ st with connectedClients := clients1 }, [])
  | ClientMessage.getDeviceHistory fromDate toDate =>
    match getLocationsByTimeRange st.db fromDate toDate with
    | Except.error e => Except.error e
    | Except.ok rows =>
      match sendToClient client
          (ServerMessage.receiveLocations (rows.map rowToPayload)) with
      | Except.error e => Except.error e
      | Except.ok sent => Except.ok (st, sent.toList)
  | ClientMessage.ping =>
    match sendToClient client ServerMessage.pong with
    | Except.error e => Except.error e
    | Except.ok sent => Except.ok (st, sent.toList)
  | ClientMessage.unknown _ => Except.ok (st, [])

/-- The `message` event handler: `JSON.parse` and the dispatch run inside a
`try`/`catch`; a parse failure (`none` frame) or a thrown exception is
logged and discarded, leaving the state untouched and sending nothing. -/
def onMessageEvent (client : ConnectedClient) (frame : Option ClientMessage)
    (st : HubState) (now : Int) : HubState × List (String × ServerMessage) :=
  match frame with
  | none => (st, [])
  | some msg =>
    match handleClientMessage client msg st now with
    | Except.ok r => r
    | Except.error _ => (st, [])

/-- The `close` event handler, the single registry-cleanup path: deletes
the client's entry from `connectedClients`.  The transport layer raises
this event both on an explicit close and on a broken connection. -/
def onCloseEvent (st : HubState) (clientId : String) : HubState :=
  { st with connectedClients :=
      st.connectedClients.filter (fun c => c.id ≠ clientId) }

/-- `maxReconnectAttempts` of the consumer-side `SignalRService`. -/
def maxReconnectAttempts : Nat := 10

/-- `nextRetryDelayInMilliseconds` of the automatic-reconnect policy:
`none` (null — stop reconnecting) once the previous retry count has
reached `maxReconnectAttempts`, otherwise the capped exponential delay. -/
def nextRetryDelayInMilliseconds (previousRetryCount : Nat) : Option Nat :=
  if previousRetryCount ≥ maxReconnectAttempts then none
  else some (min (1000 * 2 ^ previousRetryCount) 30000)

/-- Modelled from the spec: the reconnection-controller state machine.  The
automatic-reconnect driver that consumes `nextRetryDelayInMilliseconds`
lives inside the signalr client runtime, not in this repository; per the
spec it asks the policy for the next delay on each failed retry, retries
while a delay is returned, and transitions to `Closed` permanently when the
policy returns null. -/
inductive ControllerState where
  | connected
  | reconnecting (attemptCount : Nat)
  | closed
  deriving DecidableEq, Repr

/-- Modelled from the spec: one failure step of the reconnection driver.  A
drop while connected starts reconnecting at attempt 0; a failed retry asks
the policy for the next delay, incrementing the count while a delay is
given and closing permanently when the policy returns null; `closed` is
absorbing. -/
def retryStepOnFailure : ControllerState → ControllerState
  | ControllerState.connected => ControllerState.reconnecting 0
  | ControllerState.reconnecting n =>
    match nextRetryDelayInMilliseconds n with
    | none => ControllerState.closed
    | some _ => ControllerState.reconnecting (n + 1)
  | ControllerState.closed => ControllerState.closed

/-- Modelled from the spec: whether the controller issues an automatic
connect attempt from the given state — only while reconnecting with a
delay still granted by the policy. -/
def attemptsConnect : ControllerState → Bool
  | ControllerState.reconnecting n => (nextRetryDelayInMilliseconds n).isSome
  | _ => false

/-- Iterates the failure step `k` times. -/
def iterateFailures : Nat → ControllerState → ControllerState
  | 0, s => s
  | k + 1, s => iterateFailures k (retryStepOnFailure s)

/-- Whether an optional telemetry field satisfies the coercion contract:
either absent or a numeric value. -/
def coercedOrAbsent : Option JVal → Bool
  | none => true
  | some (JVal.num _) => true
  | some (JVal.str _) => false

/-! ### Helper lemmas -/

theorem sendToClient_eq (c : ConnectedClient) (m : ServerMessage) :
    sendToClient c m = Except.ok (if c.isOpen then some (c.id, m) else none) := by
  by_cases h : c.isOpen = true
  · simp [sendToClient, rawSend, h, Except.map]
  · simp at h
    simp [sendToClient, rawSend, h]

theorem broadcastLocation_eq (clients : List ConnectedClient)
    (loc : LocationUpdate) :
    broadcastLocation clients loc = Except.ok (broadcastList clients loc) := by
  induction clients with
  | nil => rfl
  | cons c rest ih =>
    by_cases ht : isTarget c loc.deviceId = true
    · by_cases ho : c.isOpen = true
      · simp [broadcastLocation, broadcastList, sendToClient_eq, ht, ho, ih,
          List.filterMap_cons]
      · simp at ho
        simp [broadcastLocation, broadcastList, sendToClient_eq, ht, ho, ih,
          List.filterMap_cons]
    · simp at ht
      simp [broadcastLocation, broadcastList, ht, ih, List.filterMap_cons]

theorem broadcastDeviceStatus_eq (clients : List ConnectedClient)
    (d s : String) :
    broadcastDeviceStatus clients d s
      = Except.ok (statusDeliveries clients d s) := by
  induction clients with
  | nil => rfl
  | cons c rest ih =>
    by_cases ho : c.isOpen = true
    · simp [broadcastDeviceStatus, statusDeliveries, sendToClient_eq, ho, ih,
        List.filterMap_cons]
    · simp at ho
      simp [broadcastDeviceStatus, statusDeliveries, sendToClient_eq, ho, ih,
        List.filterMap_cons]

theorem mem_broadcastList_id (p : String × ServerMessage)
    (clients : List ConnectedClient) (loc : LocationUpdate)
    (h : p ∈ broadcastList clients loc) :
    p.1 ∈ clients.map (fun x => x.id) := by
  rcases List.mem_filterMap.1 h with ⟨c, hc, hfc⟩
  by_cases hcond : (isTarget c loc.deviceId && c.isOpen) = true
  · simp [hcond] at hfc
    subst hfc
    exact List.mem_map.2 ⟨c, hc, rfl⟩
  · simp [hcond] at hfc

theorem eq_of_mem_of_nodup_ids (clients : List ConnectedClient)
    (hnodup : (clients.map (fun x => x.id)).Nodup)
    (c c' : ConnectedClient) (hc : c ∈ clients) (hc' : c' ∈ clients)
    (hid : c.id = c'.id) : c = c' := by
  induction clients with
  | nil => cases hc
  | cons a rest ih =>
    simp only [List.map_cons, List.nodup_cons] at hnodup
    rcases List.mem_cons.1 hc with rfl | hc₂
    · rcases List.mem_cons.1 hc' with rfl | hc₂'
      · rfl
      · exact absurd (hid ▸ List.mem_map.2 ⟨c', hc₂', rfl⟩) hnodup.1
    · rcases List.mem_cons.1 hc' with rfl | hc₂'
      · exact absurd (hid ▸ List.mem_map.2 ⟨c, hc₂, rfl⟩) hnodup.1
      · exact ih hnodup.2 hc₂ hc₂'

theorem broadcastList_cons (a : ConnectedClient) (rest : List ConnectedClient)
    (loc : LocationUpdate) :
    broadcastList (a :: rest) loc
      = (if isTarget a loc.deviceId && a.isOpen then
           [(a.id, ServerMessage.receiveLocation loc)]
         else []) ++ broadcastList rest loc := by
  by_cases hcond : (isTarget a loc.deviceId && a.isOpen) = true
  · simp only [Bool.and_eq_true] at hcond
    simp [broadcastList, List.filterMap_cons, hcond]
  · simp only [Bool.and_eq_true] at hcond
    rw [Decidable.not_and_iff_or_not] at hcond
    rcases hcond with hx | hx <;>
      simp [broadcastList, List.filterMap_cons, hx]

theorem broadcastList_filter_id_eq_nil (clients : List ConnectedClient)
    (loc : LocationUpdate) (cid : String)
    (hout : cid ∉ clients.map (fun x => x.id)) :
    (broadcastList clients loc).filter (fun p => p.1 = cid) = [] := by
  rw [List.filter_eq_nil_iff]
  intro p hp
  simp only [decide_eq_true_eq]
  intro hpe
  exact hout (hpe ▸ mem_broadcastList_id p clients loc hp)

theorem broadcastList_count (clients : List ConnectedClient)
    (loc : LocationUpdate) (c : ConnectedClient) (hmem : c ∈ clients)
    (hnodup : (clients.map (fun x => x.id)).Nodup) (hopen : c.isOpen = true) :
    ((broadcastList clients loc).filter (fun p => p.1 = c.id)).length
      = if isTarget c loc.deviceId then 1 else 0 := by
  induction clients with
  | nil => cases hmem
  | cons a rest ih =>
    simp only [List.map_cons, List.nodup_cons] at hnodup
    rw [broadcastList_cons, List.filter_append, List.length_append]
    rcases List.mem_cons.1 hmem with rfl | hc₂
    · have hrest := broadcastList_filter_id_eq_nil rest loc c.id hnodup.1
      rw [hrest]
      by_cases ht : isTarget c loc.deviceId = true
      · simp [ht, hopen]
      · simp at ht
        simp [ht, hopen]
    · have hne : a.id ≠ c.id := by
        intro he
        exact hnodup.1 (he ▸ List.mem_map.2 ⟨c, hc₂, rfl⟩)
      have hhead : (if isTarget a loc.deviceId && a.isOpen then
            [(a.id, ServerMessage.receiveLocation loc)]
          else []).filter (fun p => p.1 = c.id) = [] := by
        by_cases hcond : (isTarget a loc.deviceId && a.isOpen) = true
        · simp [hcond, hne]
        · simp [hcond]
      rw [hhead]
      simp [ih hc₂ hnodup.2]

theorem mem_broadcastList_of_target (clients : List ConnectedClient)
    (loc : LocationUpdate) (c : ConnectedClient) (hmem : c ∈ clients)
    (hopen : c.isOpen = true) (ht : isTarget c loc.deviceId = true) :
    (c.id, ServerMessage.receiveLocation loc) ∈ broadcastList clients loc := by
  exact List.mem_filterMap.2 ⟨c, hmem, by simp [ht, hopen]⟩

theorem target_of_mem_broadcastList (clients : List ConnectedClient)
    (loc : LocationUpdate) (c : ConnectedClient) (hmem : c ∈ clients)
    (hnodup : (clients.map (fun x => x.id)).Nodup)
    (h : (c.id, ServerMessage.receiveLocation loc) ∈ broadcastList clients loc) :
    isTarget c loc.deviceId = true ∧ c.isOpen = true := by
  rcases List.mem_filterMap.1 h with ⟨c', hc', hfc⟩
  by_cases hcond : (isTarget c' loc.deviceId && c'.isOpen) = true
  · simp only [hcond, if_true, Option.some.injEq, Prod.mk.injEq] at hfc
    have hce : c' = c :=
      eq_of_mem_of_nodup_ids clients hnodup c' c hc' hmem hfc.1
    subst hce
    exact ⟨(Bool.and_eq_true _ _ ▸ hcond).1, (Bool.and_eq_true _ _ ▸ hcond).2⟩
  · simp [hcond] at hfc

theorem broadcastList_remove_dead (clients : List ConnectedClient)
    (loc : LocationUpdate) (c : ConnectedClient) (hmem : c ∈ clients)
    (hdead : c.isOpen = false)
    (hnodup : (clients.map (fun x => x.id)).Nodup) :
    broadcastList (clients.filter (fun x => x.id ≠ c.id)) loc
      = broadcastList clients loc := by
  induction clients with
  | nil => cases hmem
  | cons a rest ih =>
    simp only [List.map_cons, List.nodup_cons] at hnodup
    rcases List.mem_cons.1 hmem with rfl | hc₂
    · have hall : rest.filter (fun x => x.id ≠ c.id) = rest := by
        rw [List.filter_eq_self]
        intro x hx
        simp only [ne_eq, decide_not, Bool.not_eq_true', decide_eq_false_iff_not]
        intro he
        exact hnodup.1 (he ▸ List.mem_map.2 ⟨x, hx, rfl⟩)
      have hskip : (c :: rest).filter (fun x => x.id ≠ c.id) = rest := by
        rw [List.filter_cons]
        simp [hall]
        intro x hx he
        exact hnodup.1 (he ▸ List.mem_map.2 ⟨x, hx, rfl⟩)
      rw [hskip, broadcastList_cons, hdead]
      simp
    · have hne : a.id ≠ c.id := by
        intro he
        exact hnodup.1 (he ▸ List.mem_map.2 ⟨c, hc₂, rfl⟩)
      have hkeep : (a :: rest).filter (fun x => x.id ≠ c.id)
          = a :: rest.filter (fun x => x.id ≠ c.id) := by
        rw [List.filter_cons]
        simp [hne]
      rw [hkeep, broadcastList_cons, broadcastList_cons, ih hc₂ hnodup.2]

theorem setAdd_mem (s : List String) (d : String) : d ∈ setAdd s d := by
  by_cases h : d ∈ s
  · simp [setAdd, h]
  · simp [setAdd, h]

theorem setAdd_idem (s : List String) (d : String) :
    setAdd (setAdd s d) d = setAdd s d := by
  rw [setAdd, if_pos (setAdd_mem s d)]

theorem setDelete_of_not_mem (s : List String) (d : String) (h : d ∉ s) :
    setDelete s d = s := by
  rw [setDelete, List.filter_eq_self]
  intro x hx
  simp only [ne_eq, decide_not, Bool.not_eq_true', decide_eq_false_iff_not]
  intro he
  exact h (he ▸ hx)

theorem setDelete_setAdd (s : List String) (d : String) (h : d ∉ s) :
    setDelete (setAdd s d) d = s := by
  rw [setAdd, if_neg h]
  have h1 : setDelete s d = s := setDelete_of_not_mem s d h
  simp only [setDelete, List.filter_append] at h1 ⊢
  rw [h1]
  simp

theorem updateClientGroups_comp (clients : List ConnectedClient)
    (cid : String) (f g : List String → List String) :
    updateClientGroups (updateClientGroups clients cid f) cid g
      = updateClientGroups clients cid (fun s => g (f s)) := by
  induction clients with
  | nil => rfl
  | cons a rest ih =>
    by_cases h : a.id = cid
    · simp [updateClientGroups, h] at ih ⊢
      exact ih
    · simp [updateClientGroups, h] at ih ⊢
      exact ih

theorem updateClientGroups_eq_self (clients : List ConnectedClient)
    (cid : String) (f : List String → List String)
    (h : ∀ c ∈ clients, c.id = cid → f c.deviceGroups = c.deviceGroups) :
    updateClientGroups clients cid f = clients := by
  induction clients with
  | nil => rfl
  | cons a rest ih =>
    have hrest : updateClientGroups rest cid f = rest :=
      ih (fun c hc => h c (List.mem_cons_of_mem a hc))
    simp only [updateClientGroups, List.map_cons]
    simp only [updateClientGroups] at hrest
    rw [hrest]
    by_cases ha : a.id = cid
    · have hfa : f a.deviceGroups = a.deviceGroups :=
        h a (List.mem_cons_self a rest) ha
      rw [if_pos ha, hfa]
    · rw [if_neg ha]

theorem statusDeliveries_cons (a : ConnectedClient)
    (rest : List ConnectedClient) (d s : String) :
    statusDeliveries (a :: rest) d s
      = (if a.isOpen then [(a.id, ServerMessage.deviceStatusChanged d s)]
         else []) ++ statusDeliveries rest d s := by
  by_cases h : a.isOpen = true
  · simp [statusDeliveries, List.filterMap_cons, h]
  · simp at h
    simp [statusDeliveries, List.filterMap_cons, h]

theorem statusDeliveries_groups_irrelevant (clients : List ConnectedClient)
    (d s cid : String) (f : List String → List String) :
    statusDeliveries (updateClientGroups clients cid f) d s
      = statusDeliveries clients d s := by
  induction clients with
  | nil => rfl
  | cons a rest ih =>
    by_cases h : a.id = cid
    · simp only [updateClientGroups, List.map_cons, if_pos h]
      rw [statusDeliveries_cons, statusDeliveries_cons]
      simp only [updateClientGroups] at ih
      rw [ih]
    · simp only [updateClientGroups, List.map_cons, if_neg h]
      rw [statusDeliveries_cons, statusDeliveries_cons]
      simp only [updateClientGroups] at ih
      rw [ih]

theorem mem_statusDeliveries_of_open (clients : List ConnectedClient)
    (d s : String) (c : ConnectedClient) (hmem : c ∈ clients)
    (hopen : c.isOpen = true) :
    (c.id, ServerMessage.deviceStatusChanged d s)
      ∈ statusDeliveries clients d s := by
  exact List.mem_filterMap.2 ⟨c, hmem, by simp [hopen]⟩

theorem find_status_of_any (l : List (String × String)) (d s : String)
    (h : l.any (fun p => p.1 = d) = true) :
    (l.map (fun p => if p.1 = d then (p.1, s) else p)).find?
      (fun p => p.1 = d) = some (d, s) := by
  induction l with
  | nil => simp at h
  | cons a rest ih =>
    by_cases ha : a.1 = d
    · simp [List.find?, ha]
    · simp only [List.any_cons, Bool.or_eq_true, decide_eq_true_eq] at h
      rcases h with h | h


      · exact absurd h ha
      · simp [List.find?, ha, ih h]

theorem find_status_of_not_any (l : List (String × String)) (d s : String)
    (h : l.any (fun p => p.1 = d) = false) :
    (l ++ [(d, s)]).find? (fun p => p.1 = d) = some (d, s) := by
  induction l with
  | nil => simp [List.find?]
  | cons a rest ih =>
    simp only [List.any_cons, Bool.or_eq_false_iff, decide_eq_false_iff_not] at h
    have := ih (by simp [h.2])
    simp [List.find?, h.1, this]

theorem deviceStatus_updateDeviceStatus (db : DbState) (d s : String) :
    deviceStatus (updateDeviceStatus db d s) d = some s := by
  by_cases h : db.devices.any (fun p => p.1 = d) = true
  · rw [updateDeviceStatus, if_pos h, deviceStatus]
    rw [find_status_of_any db.devices d s h]
    rfl
  · simp only [Bool.not_eq_true] at h
    rw [updateDeviceStatus, if_neg (by simp [h]), deviceStatus]
    rw [find_status_of_not_any db.devices d s h]
    rfl

theorem getLocationsByTimeRange_invalid_from (db : DbState) (t : JsDate) :
    getLocationsByTimeRange db none t
      = Except.error "RangeError: Invalid time value" := rfl

theorem getLocationsByTimeRange_inverted (db : DbState) (f t : Int)
    (h : t < f) :
    getLocationsByTimeRange db (some f) (some t) = Except.ok [] := by
  rw [getLocationsByTimeRange]
  simp only [dateToISOString]
  have hnil : db.locations.filter
      (fun r => f ≤ r.timestamp && r.timestamp ≤ t) = [] := by
    rw [List.filter_eq_nil_iff]
    intro r _
    simp only [Bool.and_eq_true, decide_eq_true_eq, not_and, not_le]
    intro hf
    exact lt_of_lt_of_le h hf
  rw [hnil]
  rfl

theorem iterateFailures_closed (k : Nat) :
    iterateFailures k ControllerState.closed = ControllerState.closed := by
  induction k with
  | zero => rfl
  | succ n ih => simp [iterateFailures, retryStepOnFailure, ih]

theorem nextRetryDelay_none_of_ge (n : Nat) (h : maxReconnectAttempts ≤ n) :
    nextRetryDelayInMilliseconds n = none := by
  simp [nextRetryDelayInMilliseconds, h]

theorem isTarget_iff (c : ConnectedClient) (d : String) :
    isTarget c d = true ↔ (c.deviceGroups = [] ∨ d ∈ c.deviceGroups) := by
  simp [isTarget]

/-! ### Claim theorems -/

/-- Claim C1: for every broadcast of a location event for device D over any
registry state, a registered connection with an open transport is delivered
the event iff its subscription set is empty (receive-all) or contains D; in
particular, with distinct connection ids it receives exactly one delivery
when it is a target and zero deliveries otherwise. -/
theorem fanout_target_selection (clients : List ConnectedClient)
    (loc : LocationUpdate) (c : ConnectedClient) (hmem : c ∈ clients)
    (hopen : c.isOpen = true)
    (hnodup : (clients.map (fun x => x.id)).Nodup) :
    broadcastLocation clients loc = Except.ok (broadcastList clients loc) ∧
    ((c.id, ServerMessage.receiveLocation loc) ∈ broadcastList clients loc
      ↔ (c.deviceGroups = [] ∨ loc.deviceId ∈ c.deviceGroups)) ∧
    ((broadcastList clients loc).filter (fun p => p.1 = c.id)).length
      = if c.deviceGroups = [] ∨ loc.deviceId ∈ c.deviceGroups then 1
        else 0 := by
  refine ⟨broadcastLocation_eq clients loc, ?_, ?_⟩
  · constructor
    · intro hm
      exact (isTarget_iff c loc.deviceId).1
        (target_of_mem_broadcastList clients loc c hmem hnodup hm).1
    · intro hp
      exact mem_broadcastList_of_target clients loc c hmem hopen
        ((isTarget_iff c loc.deviceId).2 hp)
  · have h3 := broadcastList_count clients loc c hmem hnodup hopen
    rw [show (if isTarget c loc.deviceId = true then 1 else 0)
        = (if c.deviceGroups = [] ∨ loc.deviceId ∈ c.deviceGroups then 1
           else 0) from
      if_congr (isTarget_iff c loc.deviceId) rfl rfl] at h3
    exact h3

/-- Witness for C1 at a concrete registry: a connection subscribed only to
device group A receives exactly one delivery for a broadcast of device A,
and an unsubscribed (receive-all) connection is also a target. -/
theorem fanout_target_selection_witness :
    (ConnectedClient.mk "w1" true ["A"]) ∈
      [ConnectedClient.mk "w1" true ["A"], ConnectedClient.mk "w2" true []] ∧
    (ConnectedClient.mk "w1" true ["A"]).isOpen = true ∧
    (([ConnectedClient.mk "w1" true ["A"],
       ConnectedClient.mk "w2" true []].map (fun x => x.id)).Nodup) ∧
    (broadcastLocation
        [ConnectedClient.mk "w1" true ["A"], ConnectedClient.mk "w2" true []]
        (LocationUpdate.mk "A_5" "A" (JVal.num 1) (JVal.num 2) 5
          none none none none)
      = Except.ok (broadcastList
          [ConnectedClient.mk "w1" true ["A"], ConnectedClient.mk "w2" true []]
          (LocationUpdate.mk "A_5" "A" (JVal.num 1) (JVal.num 2) 5
            none none none none)) ∧
     (((ConnectedClient.mk "w1" true ["A"]).id,
        ServerMessage.receiveLocation
          (LocationUpdate.mk "A_5" "A" (JVal.num 1) (JVal.num 2) 5
            none none none none))
        ∈ broadcastList
            [ConnectedClient.mk "w1" true ["A"],
             ConnectedClient.mk "w2" true []]
            (LocationUpdate.mk "A_5" "A" (JVal.num 1) (JVal.num 2) 5
              none none none none)
      ↔ ((ConnectedClient.mk "w1" true ["A"]).deviceGroups = [] ∨
          (LocationUpdate.mk "A_5" "A" (JVal.num 1) (JVal.num 2) 5
            none none none none).deviceId
            ∈ (ConnectedClient.mk "w1" true ["A"]).deviceGroups)) ∧
     ((broadcastList
          [ConnectedClient.mk "w1" true ["A"], ConnectedClient.mk "w2" true []]
          (LocationUpdate.mk "A_5" "A" (JVal.num 1) (JVal.num 2) 5
            none none none none)).filter
        (fun p => p.1 = (ConnectedClient.mk "w1" true ["A"]).id)).length
      = if (ConnectedClient.mk "w1" true ["A"]).deviceGroups = [] ∨
            (LocationUpdate.mk "A_5" "A" (JVal.num 1) (JVal.num 2) 5
              none none none none).deviceId
              ∈ (ConnectedClient.mk "w1" true ["A"]).deviceGroups then 1
        else 0) :=
  ⟨by decide, by decide, by decide,
   fanout_target_selection _ _ _ (by decide) (by decide) (by decide)⟩

/-- Claim C2: a send to a connection whose transport is not open is
silently dropped (`Except.ok none`), never an error; the broadcast still
succeeds and delivers to every remaining open target; and removing the
dead connection through `onCloseEvent` — the single cleanup handler used
for explicit closes and transport breakage alike — leaves every other
delivery of a broadcast unchanged. -/
theorem dead_connection_broadcast (clients : List ConnectedClient)
    (loc : LocationUpdate) (c : ConnectedClient) (db : DbState)
    (hmem : c ∈ clients) (hdead : c.isOpen = false)
    (hnodup : (clients.map (fun x => x.id)).Nodup) :
    sendToClient c (ServerMessage.receiveLocation loc) = Except.ok none ∧
    broadcastLocation clients loc = Except.ok (broadcastList clients loc) ∧
    (∀ c' ∈ clients, c'.isOpen = true → isTarget c' loc.deviceId = true →
      (c'.id, ServerMessage.receiveLocation loc) ∈ broadcastList clients loc) ∧
    broadcastLocation
        ((onCloseEvent (HubState.mk clients db) c.id).connectedClients) loc
      = broadcastLocation clients loc ∧
    c ∉ (onCloseEvent (HubState.mk clients db) c.id).connectedClients := by
  refine ⟨?_, broadcastLocation_eq clients loc, ?_, ?_, ?_⟩
  · rw [sendToClient_eq, hdead]
    rfl
  · intro c' hc' ho ht
    exact mem_broadcastList_of_target clients loc c' hc' ho ht
  · show broadcastLocation (clients.filter (fun x => x.id ≠ c.id)) loc
      = broadcastLocation clients loc
    rw [broadcastLocation_eq, broadcastLocation_eq,
      broadcastList_remove_dead clients loc c hmem hdead hnodup]
  · intro hin
    have := (List.mem_filter.1 hin).2
    simp at this

/-- Witness for C2: a registry holding one dead connection and one open
receive-all connection; the dead one's send is silently dropped and its
removal by the close handler leaves the broadcast unchanged. -/
theorem dead_connection_broadcast_witness :
    (ConnectedClient.mk "w3" false []) ∈
      [ConnectedClient.mk "w3" false [], ConnectedClient.mk "w4" true []] ∧
    (ConnectedClient.mk "w3" false []).isOpen = false ∧
    (([ConnectedClient.mk "w3" false [],
       ConnectedClient.mk "w4" true []].map (fun x => x.id)).Nodup) ∧
    (sendToClient (ConnectedClient.mk "w3" false [])
        (ServerMessage.receiveLocation
          (LocationUpdate.mk "B_5" "B" (JVal.num 1) (JVal.num 2) 5
            none none none none))
      = Except.ok none ∧
     broadcastLocation
        [ConnectedClient.mk "w3" false [], ConnectedClient.mk "w4" true []]
        (LocationUpdate.mk "B_5" "B" (JVal.num 1) (JVal.num 2) 5
          none none none none)
      = Except.ok (broadcastList
          [ConnectedClient.mk "w3" false [], ConnectedClient.mk "w4" true []]
          (LocationUpdate.mk "B_5" "B" (JVal.num 1) (JVal.num 2) 5
            none none none none)) ∧
     (∀ c' ∈ [ConnectedClient.mk "w3" false [],
              ConnectedClient.mk "w4" true []],
        c'.isOpen = true →
        isTarget c' (LocationUpdate.mk "B_5" "B" (JVal.num 1) (JVal.num 2) 5
          none none none none).deviceId = true →
        (c'.id, ServerMessage.receiveLocation
          (LocationUpdate.mk "B_5" "B" (JVal.num 1) (JVal.num 2) 5
            none none none none))
          ∈ broadcastList
              [ConnectedClient.mk "w3" false [],
               ConnectedClient.mk "w4" true []]
              (LocationUpdate.mk "B_5" "B" (JVal.num 1) (JVal.num 2) 5
                none none none none)) ∧
     broadcastLocation
        ((onCloseEvent (HubState.mk
            [ConnectedClient.mk "w3" false [], ConnectedClient.mk "w4" true []]
            (DbState.mk [] [])) (ConnectedClient.mk "w3" false []).id).connectedClients)
        (LocationUpdate.mk "B_5" "B" (JVal.num 1) (JVal.num 2) 5
          none none none none)
      = broadcastLocation
          [ConnectedClient.mk "w3" false [], ConnectedClient.mk "w4" true []]
          (LocationUpdate.mk "B_5" "B" (JVal.num 1) (JVal.num 2) 5
            none none none none) ∧
     (ConnectedClient.mk "w3" false []) ∉
        (onCloseEvent (HubState.mk
            [ConnectedClient.mk "w3" false [], ConnectedClient.mk "w4" true []]
            (DbState.mk [] [])) (ConnectedClient.mk "w3" false []).id).connectedClients) :=
  ⟨by decide, by decide, by decide,
   dead_connection_broadcast _ _ _ _ (by decide) (by decide) (by decide)⟩

/-- Claim C10: `broadcastDeviceStatus` delivers the `DeviceStatusChanged`
message to every registered connection with an open transport, and the
delivery list is invariant under any change to any connection's
subscription set — group subscriptions never filter status fanout. -/
theorem status_broadcast_unfiltered (clients : List ConnectedClient)
    (d s : String) (c : ConnectedClient) (hmem : c ∈ clients)
    (hopen : c.isOpen = true) :
    broadcastDeviceStatus clients d s
      = Except.ok (statusDeliveries clients d s) ∧
    (c.id, ServerMessage.deviceStatusChanged d s)
      ∈ statusDeliveries clients d s ∧
    (∀ cid f, statusDeliveries (updateClientGroups clients cid f) d s
        = statusDeliveries clients d s) :=
  ⟨broadcastDeviceStatus_eq clients d s,
   mem_statusDeliveries_of_open clients d s c hmem hopen,
   fun cid f => statusDeliveries_groups_irrelevant clients d s cid f⟩

/-- Witness for C10: a connection subscribed only to group A still receives
the status event for device B, and rewriting its groups does not change the
deliveries. -/
theorem status_broadcast_unfiltered_witness :
    (ConnectedClient.mk "w5" true ["A"]) ∈ [ConnectedClient.mk "w5" true ["A"]] ∧
    (ConnectedClient.mk "w5" true ["A"]).isOpen = true ∧
    (broadcastDeviceStatus [ConnectedClient.mk "w5" true ["A"]] "B" "online"
      = Except.ok (statusDeliveries [ConnectedClient.mk "w5" true ["A"]]
          "B" "online") ∧
     ((ConnectedClient.mk "w5" true ["A"]).id,
       ServerMessage.deviceStatusChanged "B" "online")
       ∈ statusDeliveries [ConnectedClient.mk "w5" true ["A"]] "B" "online" ∧
     (∀ cid f, statusDeliveries
          (updateClientGroups [ConnectedClient.mk "w5" true ["A"]] cid f)
          "B" "online"
        = statusDeliveries [ConnectedClient.mk "w5" true ["A"]] "B" "online")) :=
  ⟨by decide, by decide,
   status_broadcast_unfiltered _ _ _ _ (by decide) (by decide)⟩

/-- Counterexample to claim C3 as stated: at retry attempt count 10 the
policy computes no delay at all (null — stop reconnecting), not
min(1000 * 2 ^ 10, 30000) = 30000. -/
theorem backoff_formula_counterexample :
    nextRetryDelayInMilliseconds 10 = none ∧
    nextRetryDelayInMilliseconds 10 ≠ some (min (1000 * 2 ^ 10) 30000) := by
  decide

/-- Claim C3 as amended: for every retry attempt count below the
`maxReconnectAttempts` ceiling of 10, the computed retry delay equals
min(1000 * 2 ^ n, 30000); attempts 0 through 6 yield 1000, 2000, 4000,
8000, 16000, 30000, 30000 ms.  From the ceiling on the policy returns
null instead. -/
theorem backoff_delay_below_ceiling (n : Nat)
    (h : n < maxReconnectAttempts) :
    nextRetryDelayInMilliseconds n = some (min (1000 * 2 ^ n) 30000) ∧
    (List.range 7).map nextRetryDelayInMilliseconds
      = [some 1000, some 2000, some 4000, some 8000, some 16000,
         some 30000, some 30000] := by
  constructor
  · rw [nextRetryDelayInMilliseconds, if_neg (Nat.not_le.mpr h)]
  · decide

/-- Witness for the amended C3 at attempt count 3. -/
theorem backoff_delay_below_ceiling_witness :
    3 < maxReconnectAttempts ∧
    (nextRetryDelayInMilliseconds 3 = some (min (1000 * 2 ^ 3) 30000) ∧
     (List.range 7).map nextRetryDelayInMilliseconds
       = [some 1000, some 2000, some 4000, some 8000, some 16000,
          some 30000, some 30000]) :=
  ⟨by decide, backoff_delay_below_ceiling 3 (by decide)⟩

/-- Claim C4: once the consecutive-failure count reaches
`maxReconnectAttempts` = 10, the retry policy yields no next delay, the
controller transitions to closed, closed is absorbing under further
failures, and no state reachable from that point issues an automatic
connect attempt. -/
theorem reconnect_ceiling_closes (n : Nat)
    (h : maxReconnectAttempts ≤ n) :
    nextRetryDelayInMilliseconds n = none ∧
    retryStepOnFailure (ControllerState.reconnecting n)
      = ControllerState.closed ∧
    (∀ k, iterateFailures k ControllerState.closed
        = ControllerState.closed) ∧
    (∀ k, attemptsConnect (iterateFailures k (ControllerState.reconnecting n))
        = false) := by
  have hd := nextRetryDelay_none_of_ge n h
  refine ⟨hd, ?_, iterateFailures_closed, ?_⟩
  · simp [retryStepOnFailure, hd]
  · intro k
    cases k with
    | zero => simp [iterateFailures, attemptsConnect, hd]
    | succ m =>
      have hcl : iterateFailures (m + 1) (ControllerState.reconnecting n)
          = ControllerState.closed := by
        simp [iterateFailures, retryStepOnFailure, hd, iterateFailures_closed]
      rw [hcl]
      rfl

/-- Witness for C4 at failure count 10. -/
theorem reconnect_ceiling_closes_witness :
    maxReconnectAttempts ≤ 10 ∧
    (nextRetryDelayInMilliseconds 10 = none ∧
     retryStepOnFailure (ControllerState.reconnecting 10)
       = ControllerState.closed ∧
     (∀ k, iterateFailures k ControllerState.closed
         = ControllerState.closed) ∧
     (∀ k, attemptsConnect
         (iterateFailures k (ControllerState.reconnecting 10)) = false)) :=
  ⟨by decide, reconnect_ceiling_closes 10 (by decide)⟩

/-- Claim C5: an inbound frame that fails to parse, or parses to an
unrecognized type tag, is non-fatal: the frame is discarded, nothing is
sent, the registry and storage state are unchanged, and a subsequent
broadcast over the resulting state behaves exactly as before. -/
theorem malformed_frame_nonfatal (client : ConnectedClient) (tag : String)
    (st : HubState) (now : Int) :
    onMessageEvent client none st now = (st, []) ∧
    onMessageEvent client (some (ClientMessage.unknown tag)) st now
      = (st, []) ∧
    (∀ loc, broadcastLocation
        (onMessageEvent client (some (ClientMessage.unknown tag))
          st now).1.connectedClients loc
      = broadcastLocation st.connectedClients loc) :=
  ⟨rfl, rfl, fun _ => rfl⟩

/-- Counterexample to claim C6 as stated: a `SendLocation` whose `accuracy`
field arrives as the string "12.5" is stored with that string verbatim —
the field is neither coerced to a number nor made absent. -/
theorem telemetry_coercion_counterexample :
    (match handleClientMessage (ConnectedClient.mk "c1" true [])
        (ClientMessage.sendLocation (SendLocationMsg.mk "B" (JVal.num 1)
          (JVal.num 2) (some (JVal.str "12.5")) none none none))
        (HubState.mk [ConnectedClient.mk "c1" true []] (DbState.mk [] [])) 7 with
      | Except.ok r => r.1.db.locations.map (fun row => row.accuracy)
      | Except.error _ => []) = [some (JVal.str "12.5")] ∧
    coercedOrAbsent (some (JVal.str "12.5")) = false := by
  decide

/-- Claim C6 as amended: the `SendLocation` handler copies every telemetry
field of the decoded message into the constructed and stored
`LocationUpdate` verbatim — no string-to-number coercion is performed, an
absent field stays absent, and the message is processed (stored and
broadcast) regardless of the fields' types. -/
theorem telemetry_fields_verbatim (client : ConnectedClient)
    (m : SendLocationMsg) (st : HubState) (now : Int) :
    (mkLocationUpdate m now).latitude = m.latitude ∧
    (mkLocationUpdate m now).longitude = m.longitude ∧
    (mkLocationUpdate m now).accuracy = m.accuracy ∧
    (mkLocationUpdate m now).speed = m.speed ∧
    (mkLocationUpdate m now).heading = m.heading ∧
    (mkLocationUpdate m now).altitude = m.altitude ∧
    (locationToRow (mkLocationUpdate m now)).accuracy = m.accuracy ∧
    handleClientMessage client (ClientMessage.sendLocation m) st now
      = Except.ok
          ({ st with db := insertLocation st.db (mkLocationUpdate m now) },
           broadcastList st.connectedClients (mkLocationUpdate m now)) := by
  refine ⟨rfl, rfl, rfl, rfl, rfl, rfl, rfl, ?_⟩
  simp [handleClientMessage, broadcastLocation_eq]

/-- Counterexample to claim C8 as stated: a `SendLocation` for a device
whose stored status is offline changes the stored status to online — a
genuine state transition — yet the handler emits no `DeviceStatusChanged`
delivery at all. -/
theorem presence_no_emission_counterexample :
    deviceStatus (DbState.mk [] [("d7", "offline")]) "d7" = some "offline" ∧
    (match handleClientMessage (ConnectedClient.mk "c1" true [])
        (ClientMessage.sendLocation (SendLocationMsg.mk "d7" (JVal.num 1)
          (JVal.num 2) none none none none))
        (HubState.mk [ConnectedClient.mk "c1" true []]
          (DbState.mk [] [("d7", "offline")])) 7 with
      | Except.ok r =>
        (deviceStatus r.1.db "d7", r.2.filter (fun p => isStatusMsg p.2))
      | Except.error _ => (none, [("x", ServerMessage.pong)]))
      = (some "online", []) := by
  decide

/-- Claim C8 as amended: every `SendLocation` for device D unconditionally
sets D's stored status to online (whether or not it was online already),
and the handler emits no `DeviceStatusChanged` delivery — the
`broadcastDeviceStatus` fanout is never invoked from the message-handling
path. -/
theorem sendLocation_marks_online_no_status_event (client : ConnectedClient)
    (m : SendLocationMsg) (st : HubState) (now : Int) :
    handleClientMessage client (ClientMessage.sendLocation m) st now
      = Except.ok
          ({ st with db := insertLocation st.db (mkLocationUpdate m now) },
           broadcastList st.connectedClients (mkLocationUpdate m now)) ∧
    deviceStatus (insertLocation st.db (mkLocationUpdate m now)) m.deviceId
      = some "online" ∧
    (broadcastList st.connectedClients (mkLocationUpdate m now)).filter
        (fun p => isStatusMsg p.2) = [] := by
  refine ⟨?_, ?_, ?_⟩
  · simp [handleClientMessage, broadcastLocation_eq]
  · exact deviceStatus_updateDeviceStatus _ m.deviceId "online"
  · rw [List.filter_eq_nil_iff]
    intro p hp
    rcases List.mem_filterMap.1 hp with ⟨c', _, hfc⟩
    by_cases hcond :
        (isTarget c' (mkLocationUpdate m now).deviceId && c'.isOpen) = true
    · simp only [hcond, if_true, Option.some.injEq] at hfc
      rw [← hfc]
      simp [isStatusMsg]
    · simp [hcond] at hfc

/-- Counterexample to claim C7 as stated: a `GetDeviceHistory` with an
unparsable `from` date makes the storage query throw; the per-message
catch swallows the exception, so nothing at all is sent back to the
requesting connection — not an empty result. -/
theorem history_invalid_date_counterexample :
    handleClientMessage (ConnectedClient.mk "c1" true [])
        (ClientMessage.getDeviceHistory none (some 5))
        (HubState.mk [ConnectedClient.mk "c1" true []] (DbState.mk [] [])) 7
      = Except.error "RangeError: Invalid time value" ∧
    onMessageEvent (ConnectedClient.mk "c1" true [])
        (some (ClientMessage.getDeviceHistory none (some 5)))
        (HubState.mk [ConnectedClient.mk "c1" true []] (DbState.mk [] [])) 7
      = (HubState.mk [ConnectedClient.mk "c1" true []] (DbState.mk [] []),
         []) :=
  ⟨rfl, rfl⟩

/-- Claim C7 as amended: a `GetDeviceHistory` reply goes directly and only
to the requesting connection as a `ReceiveLocations` message and never
mutates the state; `to` earlier than `from` (both parsable) yields an
empty-list reply; an unparsable date makes the handler throw, the
message-loop catch discards the frame, the connection stays open and the
registry is unchanged, but no reply is sent. -/
theorem history_reply_direct (client : ConnectedClient) (st : HubState)
    (f t now : Int) (hopen : client.isOpen = true) (hlt : t < f) :
    handleClientMessage client
        (ClientMessage.getDeviceHistory (some f) (some t)) st now
      = Except.ok (st, [(client.id, ServerMessage.receiveLocations [])]) ∧
    (∀ fd td r, handleClientMessage client
        (ClientMessage.getDeviceHistory fd td) st now = Except.ok r →
      r.1 = st ∧ ∀ p ∈ r.2, p.1 = client.id) ∧
    (∀ td, onMessageEvent client
        (some (ClientMessage.getDeviceHistory none td)) st now
      = (st, [])) := by
  refine ⟨?_, ?_, fun td => rfl⟩
  · simp [handleClientMessage, getLocationsByTimeRange_inverted st.db f t hlt,
      sendToClient_eq, hopen]
  · intro fd td r hr
    simp only [handleClientMessage] at hr
    cases hq : getLocationsByTimeRange st.db fd td with
    | error e => rw [hq] at hr; cases hr
    | ok rows =>
      rw [hq] at hr
      have hr2 : (match sendToClient client
          (ServerMessage.receiveLocations (rows.map rowToPayload)) with
        | Except.error e => Except.error e
        | Except.ok sent => Except.ok (st, sent.toList)) = Except.ok r := hr
      rw [sendToClient_eq] at hr2
      by_cases ho : client.isOpen = true
      · rw [if_pos ho] at hr2
        injection hr2 with h
        rw [← h]
        exact ⟨rfl, by simp⟩
      · simp only [Bool.not_eq_true] at ho
        rw [ho] at hr2
        simp only [Bool.false_eq_true, if_false] at hr2
        injection hr2 with h
        rw [← h]
        exact ⟨rfl, by simp⟩

/-- Witness for the amended C7: a concrete inverted range gets an empty
reply sent only to the requester, and an unparsable date gets no reply. -/
theorem history_reply_direct_witness :
    (ConnectedClient.mk "w6" true []).isOpen = true ∧
    (5 : Int) < 9 ∧
    (handleClientMessage (ConnectedClient.mk "w6" true [])
        (ClientMessage.getDeviceHistory (some 9) (some 5))
        (HubState.mk [ConnectedClient.mk "w6" true []] (DbState.mk [] [])) 7
      = Except.ok
          (HubState.mk [ConnectedClient.mk "w6" true []] (DbState.mk [] []),
           [((ConnectedClient.mk "w6" true []).id,
             ServerMessage.receiveLocations [])]) ∧
     (∀ fd td r, handleClientMessage (ConnectedClient.mk "w6" true [])
        (ClientMessage.getDeviceHistory fd td)
        (HubState.mk [ConnectedClient.mk "w6" true []] (DbState.mk [] [])) 7
          = Except.ok r →
      r.1 = HubState.mk [ConnectedClient.mk "w6" true []] (DbState.mk [] []) ∧
      ∀ p ∈ r.2, p.1 = (ConnectedClient.mk "w6" true []).id) ∧
     (∀ td, onMessageEvent (ConnectedClient.mk "w6" true [])
        (some (ClientMessage.getDeviceHistory none td))
        (HubState.mk [ConnectedClient.mk "w6" true []] (DbState.mk [] [])) 7
      = (HubState.mk [ConnectedClient.mk "w6" true []] (DbState.mk [] []),
         []))) :=
  ⟨by decide, by decide,
   history_reply_direct _ _ _ _ _ (by decide) (by decide)⟩

/-- Claim C9: for a connection not subscribed to device D, handling
`JoinDeviceGroup D` and then `LeaveDeviceGroup D` restores the hub state
exactly, so subsequent broadcasts behave as if it had never joined;
moreover `Set.add` is idempotent and deleting a never-added element is a
no-op. -/
theorem join_leave_roundtrip (client : ConnectedClient) (st : HubState)
    (d : String) (now now2 : Int) (s : List String)
    (hmem : client ∈ st.connectedClients)
    (hnodup : (st.connectedClients.map (fun x => x.id)).Nodup)
    (hnot : d ∉ client.deviceGroups) (hs : d ∉ s) :
    (∃ st1,
      handleClientMessage client (ClientMessage.joinDeviceGroup d) st now
        = Except.ok (st1, []) ∧
      handleClientMessage client (ClientMessage.leaveDeviceGroup d) st1 now2
        = Except.ok (st, [])) ∧
    setAdd (setAdd s d) d = setAdd s d ∧
    setDelete s d = s := by
  have hX : updateClientGroups
      (updateClientGroups st.connectedClients client.id (fun g => setAdd g d))
      client.id (fun g => setDelete g d) = st.connectedClients := by
    rw [updateClientGroups_comp]
    apply updateClientGroups_eq_self
    intro c hc hcid
    have hceq : c = client :=
      eq_of_mem_of_nodup_ids st.connectedClients hnodup c client hc hmem hcid
    rw [hceq]
    exact setDelete_setAdd client.deviceGroups d hnot
  refine ⟨⟨{ st with connectedClients :=
      updateClientGroups st.connectedClients client.id (fun g => setAdd g d) },
    rfl, ?_⟩, setAdd_idem s d, setDelete_of_not_mem s d hs⟩
  simp only [handleClientMessage]
  rw [hX]

/-- Witness for C9: a connection subscribed to B joins A then leaves A and
the hub state is restored exactly. -/
theorem join_leave_roundtrip_witness :
    (ConnectedClient.mk "w9" true ["B"]) ∈
      [ConnectedClient.mk "w9" true ["B"]] ∧
    (([ConnectedClient.mk "w9" true ["B"]].map (fun x => x.id)).Nodup) ∧
    "A" ∉ (ConnectedClient.mk "w9" true ["B"]).deviceGroups ∧
    "A" ∉ ["B"] ∧
    ((∃ st1,
      handleClientMessage (ConnectedClient.mk "w9" true ["B"])
          (ClientMessage.joinDeviceGroup "A")
          (HubState.mk [ConnectedClient.mk "w9" true ["B"]] (DbState.mk [] [])) 1
        = Except.ok (st1, []) ∧
      handleClientMessage (ConnectedClient.mk "w9" true ["B"])
          (ClientMessage.leaveDeviceGroup "A") st1 2
        = Except.ok
            (HubState.mk [ConnectedClient.mk "w9" true ["B"]]
              (DbState.mk [] []), [])) ∧
     setAdd (setAdd ["B"] "A") "A" = setAdd ["B"] "A" ∧
     setDelete ["B"] "A" = ["B"]) :=
  ⟨by decide, by decide, by decide, by decide,
   join_leave_roundtrip _ _ _ _ _ _ (by decide) (by decide) (by decide)
     (by decide)⟩

end SafeRouteMaps
